import Mathlib

/-!
Shallow embedding of the down-detector status engine.

Sources embedded here:
- src/lib/status-utils.ts : classify, checkServiceStatus
- src/unnamed/part_004    : POST /api/check-status (scheduler query, worker
  pool step, incident reconciliation, batch insert, cleanup) and GET
- src/unnamed/part_003    : POST incident creation (admin API)
- src/app/api/services/route.ts : POST service creation
- src/app/api/check-status/force/[secret]/route.ts : GET with path secret
- src/schema.sql          : table shapes and defaults

Time is an Int (epoch seconds); database rows are lists of structures.
JavaScript truthiness on strings and numbers is modelled explicitly
(jsOrStr, jsOrNullStr, jsTruthyNat). Network nondeterminism is packaged as
explicit outcome parameters (Attempt, probe oracles).
-/

namespace DownDetector

/-- Health levels of src/lib/status-utils.ts (a probe result status). -/
inductive Health
  | operational
  | degraded
  | down
deriving DecidableEq, Repr

/-- A JavaScript Error as observed by the catch blocks: its name and an
optional message (undefined message is none). -/
structure JsError where
  name : String
  message : Option String
deriving DecidableEq, Repr

/-- One fetch attempt outcome: an HTTP response (status code plus elapsed
latency in ms) or a thrown transport error. -/
inductive Attempt
  | ok (statusCode : Nat) (latencyMs : Nat)
  | err (e : JsError)
deriving DecidableEq, Repr

/-- The environment of one checkServiceStatus call: the GET outcome, the
fallback HEAD outcome, and the total elapsed ms measured at the
double-failure point. -/
structure ProbeEnv where
  getAttempt : Attempt
  headAttempt : Attempt
  totalLatency : Nat
deriving DecidableEq, Repr

/-- The value checkServiceStatus resolves with (status-utils.ts lines
130-135). -/
structure CheckResult where
  status : Health
  response_time : Option Nat
  status_code : Option Nat
  error_message : Option String
deriving DecidableEq, Repr

/-- classify from src/lib/status-utils.ts lines 139-171: map an HTTP status
code and latency to a health level and optional message. -/
def classify (statusCode latencyMs : Nat) : Health × Option String :=
  if 200 ≤ statusCode ∧ statusCode < 300 then
    if latencyMs > 2500 then (Health.degraded, some "Slow response")
    else (Health.operational, none)
  else if statusCode = 401 ∨ statusCode = 403 then (Health.operational, none)
  else if statusCode = 429 then (Health.degraded, some "Rate limited (429)")
  else if statusCode = 404 then (Health.degraded, some "Page not found (404)")
  else if 500 ≤ statusCode then
    (Health.down, some ("Server error (" ++ toString statusCode ++ ")"))
  else if 400 ≤ statusCode then
    (Health.degraded, some ("Client error (" ++ toString statusCode ++ ")"))
  else if 300 ≤ statusCode ∧ statusCode < 400 then (Health.operational, none)
  else (Health.degraded, some ("Unexpected status (" ++ toString statusCode ++ ")"))

/-- True when the pattern occurs as a contiguous run of the list. -/
def charsInclude (pat : List Char) : List Char → Bool
  | [] => List.isPrefixOf pat []
  | c :: cs => List.isPrefixOf pat (c :: cs) || charsInclude pat cs

/-- True when the pattern occurs as a substring (JavaScript
String.prototype.includes). -/
def strIncludes (s pat : String) : Bool :=
  charsInclude pat.toList s.toList

/-- The error-message classification of the double-failure catch block
(status-utils.ts lines 227-237), including JavaScript falsiness of an
empty message. -/
def classifyTransportError (e : JsError) : String :=
  if e.name = "AbortError" then "Request timeout (>10s)"
  else
    match e.message with
    | none => "Connection failed"
    | some m =>
      if strIncludes m "ENOTFOUND" then "Domain not found (DNS error)"
      else if strIncludes m "ECONNREFUSED" then "Connection refused"
      else if m ≠ "" then m
      else "Connection failed"

/-- checkServiceStatus from src/lib/status-utils.ts lines 130-247: try GET,
fall back to HEAD, classify; on double failure produce a down result. -/
def checkServiceStatus (env : ProbeEnv) : CheckResult :=
  match env.getAttempt with
  | Attempt.ok code latency =>
    let c := classify code latency
    ⟨c.1, some latency, some code, c.2⟩
  | Attempt.err e =>
    match env.headAttempt with
    | Attempt.ok code latency =>
      let c := classify code latency
      ⟨c.1, some latency, some code, c.2.map (fun m => "Fallback HEAD: " ++ m)⟩
    | Attempt.err _ =>
      ⟨Health.down,
       if e.name = "AbortError" then none else some env.totalLatency,
       none,
       some (classifyTransportError e)⟩

/-- A monitored service row (schema.sql table services; src/unnamed/part_006
interface Service). -/
structure Service where
  id : Nat
  name : String
  url : String
  description : Option String
  is_active : Bool
  check_interval : Nat
deriving DecidableEq, Repr

/-- A status_checks row (schema.sql table status_checks). -/
structure StatusCheckRow where
  service_id : Nat
  status : Health
  response_time : Option Nat
  status_code : Option Nat
  error_message : Option String
  checked_at : Int
deriving DecidableEq, Repr

/-- An incidents row (schema.sql table incidents). -/
structure Incident where
  id : Nat
  service_id : Nat
  title : String
  description : Option String
  status : String
  severity : String
  started_at : Int
  resolved_at : Option Int
deriving DecidableEq, Repr

/-- An incident_updates row (schema.sql table incident_updates). -/
structure IncidentUpdate where
  incident_id : Nat
  message : String
  status : String
deriving DecidableEq, Repr

/-- An announcement_reasons row (schema.sql table announcement_reasons). -/
structure AnnouncementReason where
  incident_id : Nat
  service_id : Nat
  reason_code : String
  reason_text : String
deriving DecidableEq, Repr

/-- The database state: the five tables the engine touches plus the SERIAL
counter for incident ids. -/
structure DB where
  services : List Service
  status_checks : List StatusCheckRow
  incidents : List Incident
  incident_updates : List IncidentUpdate
  announcement_reasons : List AnnouncementReason
  next_incident_id : Nat
deriving DecidableEq, Repr

/-- JavaScript v || d for a possibly-undefined string: undefined and the
empty string are falsy. -/
def jsOrStr (v : Option String) (d : String) : String :=
  match v with
  | some s => if s = "" then d else s
  | none => d

/-- JavaScript v || null for a possibly-undefined string. -/
def jsOrNullStr (v : Option String) : Option String :=
  match v with
  | some s => if s = "" then none else some s
  | none => none

/-- JavaScript truthiness of a nullable numeric id (null and 0 are falsy);
models the if-not-incidentId test of part_004 line 67. -/
def jsTruthyNat : Option Nat → Bool
  | none => false
  | some n => n ≠ 0

/-- The non-resolved incidents of a target within a list of rows (the SQL
filter service_id = sid AND status != resolved), in table order. -/
def activeList (l : List Incident) (sid : Nat) : List Incident :=
  l.filter (fun i => i.service_id = sid ∧ i.status ≠ "resolved")

/-- The non-resolved incidents of a target. -/
def activeIncidentsFor (db : DB) (sid : Nat) : List Incident :=
  activeList db.incidents sid

/-- The number of non-resolved incidents of a target. -/
def countActive (db : DB) (sid : Nat) : Nat :=
  (activeIncidentsFor db sid).length

/-- The down branch of the worker in src/unnamed/part_004 lines 60-115:
if no active incident exists (rows[0]?.id is falsy), insert a new
investigating/major incident and persist one announcement reason for it
(ON CONFLICT (incident_id) DO NOTHING). The weighted-random template pick
is passed in as the chosen (code, label) pair. -/
def reconcileDown (db : DB) (now : Int) (svc : Service) (errMsg : Option String)
    (reason : String × String) : DB :=
  let incidentId : Option Nat := (activeIncidentsFor db svc.id).head?.map (fun i => i.id)
  if jsTruthyNat incidentId then db
  else
    let newId := db.next_incident_id
    let inc : Incident :=
      ⟨newId, svc.id, svc.name ++ " is down",
       some (jsOrStr errMsg "Service is not responding"),
       "investigating", "major", now, none⟩
    let db2 := { db with
      incidents := db.incidents ++ [inc],
      next_incident_id := newId + 1 }
    if db2.announcement_reasons.any (fun r => r.incident_id = newId) then db2
    else { db2 with
      announcement_reasons :=
        db2.announcement_reasons ++ [⟨newId, svc.id, reason.1, reason.2⟩] }

/-- The row transformation of the resolving UPDATE (part_004 lines
118-124): a matching row gets status resolved and resolved_at now. -/
def resolveRow (sid : Nat) (now : Int) (i : Incident) : Incident :=
  if i.service_id = sid ∧ i.status ≠ "resolved"
  then { i with status := "resolved", resolved_at := some now } else i

/-- The operational branch of the worker in src/unnamed/part_004 lines
116-145: resolve every non-resolved incident of the target in one update
(RETURNING id), then, when any row was resolved, delete the announcement
reasons of those incidents and insert one restored incident update per
resolved id. -/
def reconcileOperational (db : DB) (now : Int) (sid : Nat) : DB :=
  let resolvedIds := (activeIncidentsFor db sid).map (fun i => i.id)
  let incidents2 := db.incidents.map (resolveRow sid now)
  if resolvedIds.isEmpty then { db with incidents := incidents2 }
  else
    { db with
      incidents := incidents2,
      announcement_reasons :=
        db.announcement_reasons.filter (fun r => ¬ resolvedIds.contains r.incident_id),
      incident_updates :=
        db.incident_updates ++ resolvedIds.map
          (fun d => ⟨d, "Service has been restored and is operational", "resolved"⟩) }

/-- The per-result incident management dispatch of the worker (part_004
lines 60-146): down opens, operational closes, anything else is left
alone. -/
def reconcile (db : DB) (now : Int) (svc : Service) (r : CheckResult)
    (reason : String × String) : DB :=
  if r.status = Health.down then reconcileDown db now svc r.error_message reason
  else if r.status = Health.operational then reconcileOperational db now svc.id
  else db

/-- A row pushed onto the collected array by a worker (part_004 lines
52-57): the probe result together with the service id and name. -/
structure CollectedRow where
  service_id : Nat
  name : String
  status : Health
  response_time : Option Nat
  status_code : Option Nat
  error_message : Option String
deriving DecidableEq, Repr

/-- One worker iteration for one service (part_004 lines 48-153): push the
probe result onto collected, then reconcile incident state. -/
def workerStep (st : DB × List CollectedRow) (now : Int) (svc : Service)
    (r : CheckResult) (reason : String × String) : DB × List CollectedRow :=
  (reconcile st.1 now svc r reason,
   st.2 ++ [⟨svc.id, svc.name, r.status, r.response_time, r.status_code, r.error_message⟩])

/-- POST incident creation from src/unnamed/part_003 lines 57-68: insert an
incident unconditionally, defaulting status to investigating and severity
to major (JavaScript falsy defaults). -/
def adminCreateIncident (db : DB) (now : Int) (sid : Nat) (title : String)
    (description status severity : Option String) : DB :=
  { db with
    incidents := db.incidents ++
      [⟨db.next_incident_id, sid, title, jsOrNullStr description,
        jsOrStr status "investigating", jsOrStr severity "major", now, none⟩],
    next_incident_id := db.next_incident_id + 1 }

/-- The greatest element of a list of times, none when empty; models the
DISTINCT ON (service_id) ... ORDER BY checked_at DESC pick of part_004
lines 24-28. -/
def maxTime : List Int → Option Int
  | [] => none
  | t :: ts =>
    match maxTime ts with
    | none => some t
    | some m => some (max t m)

/-- The checked_at of the most recent status check of a service, none when
it was never checked. -/
def lastCheckedAt (checks : List StatusCheckRow) (sid : Nat) : Option Int :=
  maxTime ((checks.filter (fun c => c.service_id = sid)).map (fun c => c.checked_at))

/-- The due-services query of part_004 lines 20-37: with force, every
active service; otherwise every active service never checked or whose last
check is at least check_interval seconds old. -/
def dueServices (services : List Service) (checks : List StatusCheckRow)
    (now : Int) (force : Bool) : List Service :=
  if force then services.filter (fun s => s.is_active)
  else
    services.filter (fun s =>
      s.is_active &&
        match lastCheckedAt checks s.id with
        | none => true
        | some t => decide (t ≤ now - (s.check_interval : Int)))

/-- Thirty days in seconds; the retention window of
cleanup_old_status_checks (schema.sql lines 95-101). -/
def retentionSeconds : Int := 30 * 24 * 60 * 60

/-- The body of the check cycle after authorization (part_004 lines 19-194):
select due services, run the worker steps, batch insert the collected
status checks, then run the retention cleanup. Probe outcomes and reason
picks are supplied as oracles. Returns the final database and the list of
services that were probed. -/
def runCycle (db : DB) (now : Int) (force : Bool)
    (probe : Service → CheckResult) (reasonOf : Service → String × String) :
    DB × List Service :=
  let due := dueServices db.services db.status_checks now force
  let fin := due.foldl
    (fun st svc => workerStep st now svc (probe svc) (reasonOf svc))
    ((db, []) : DB × List CollectedRow)
  let db2 := { fin.1 with
    status_checks := fin.1.status_checks ++ fin.2.map
      (fun (r : CollectedRow) =>
        (⟨r.service_id, r.status, r.response_time, r.status_code,
          r.error_message, now⟩ : StatusCheckRow)) }
  let db3 := { db2 with
    status_checks := db2.status_checks.filter
      (fun c => now - retentionSeconds ≤ c.checked_at) }
  (db3, due)

/-- Outcome of a route handler: HTTP status, resulting database, and the
services that were probed during the call. -/
structure HandlerOutcome where
  httpStatus : Nat
  db : DB
  probed : List Service
deriving Repr

/-- The rejection condition of POST /api/check-status (part_004 line 12):
a configured, truthy CRON_SECRET together with an authorization header
different from Bearer secret. -/
def postRejects (cronSecret authHeader : Option String) : Bool :=
  match cronSecret with
  | none => false
  | some s => s ≠ "" && authHeader ≠ some ("Bearer " ++ s)

/-- Parse the x-force-check header or force query parameter (part_004
lines 16-17 and 208): String(v || "").toLowerCase() is "1" or "true". -/
def parseForce (h : Option String) : Bool :=
  let v := (jsOrStr h "").toLower
  v = "1" || v = "true"

/-- POST /api/check-status (part_004 lines 6-202): reject unauthorized
requests before touching the database, otherwise run the cycle. -/
def postHandler (cronSecret authHeader forceHeader : Option String) (db : DB)
    (now : Int) (probe : Service → CheckResult)
    (reasonOf : Service → String × String) : HandlerOutcome :=
  if postRejects cronSecret authHeader then ⟨401, db, []⟩
  else
    let r := runCycle db now (parseForce forceHeader) probe reasonOf
    ⟨200, r.1, r.2⟩

/-- The pass condition of GET /api/check-status (part_004 line 210): the
secret query parameter strictly equals process.env.CRON_SECRET; a missing
parameter (null) never strictly equals an unset variable (undefined). -/
def getAuthOk (cronSecret secretParam : Option String) : Bool :=
  match cronSecret, secretParam with
  | some e, some p => p = e
  | _, _ => false

/-- JavaScript template interpolation of a possibly-undefined string. -/
def jsTemplate (v : Option String) : String :=
  match v with
  | some s => s
  | none => "undefined"

/-- GET /api/check-status (part_004 lines 204-224): check the secret query
parameter, then re-enter POST with a Bearer header and a normalized force
header. -/
def getHandler (cronSecret secretParam forceParam : Option String) (db : DB)
    (now : Int) (probe : Service → CheckResult)
    (reasonOf : Service → String × String) : HandlerOutcome :=
  if getAuthOk cronSecret secretParam = false then ⟨401, db, []⟩
  else
    postHandler cronSecret (some ("Bearer " ++ jsTemplate cronSecret))
      (some (if parseForce forceParam then "1" else "0")) db now probe reasonOf

/-- GET /api/check-status/force/[secret] (route.ts lines 4-24): the path
secret must equal a nonempty CRON_SECRET; on success re-enter POST with a
Bearer header and x-force-check 1. -/
def forceHandler (cronSecret : Option String) (pathSecret : String) (db : DB)
    (now : Int) (probe : Service → CheckResult)
    (reasonOf : Service → String × String) : HandlerOutcome :=
  let expected := jsOrStr cronSecret ""
  if expected = "" || pathSecret ≠ expected then ⟨401, db, []⟩
  else
    postHandler cronSecret (some ("Bearer " ++ expected)) (some "1")
      db now probe reasonOf

/-- The request body of POST /api/services (route.ts lines 58-59). -/
structure ServicesPostBody where
  name : Option String
  url : Option String
  description : Option String
  check_interval : Option Nat
deriving DecidableEq, Repr

/-- The check_interval value inserted by POST /api/services (route.ts line
72): body value when truthy, otherwise 300. -/
def servicesPostInterval (v : Option Nat) : Nat :=
  match v with
  | some n => if n = 0 then 300 else n
  | none => 300

/-- The column default of services.check_interval declared in schema.sql
line 12 (the documented default, in seconds). -/
def services_check_interval_default : Nat := 420

/-- POST /api/services (route.ts lines 56-83): 400 when name or url is
falsy, otherwise insert the service (is_active defaults to true per the
schema) and answer 201. -/
def servicesPost (db : DB) (newId : Nat) (body : ServicesPostBody) : DB × Nat :=
  if jsOrStr body.name "" = "" || jsOrStr body.url "" = "" then (db, 400)
  else
    ({ db with services := db.services ++
        [⟨newId, jsOrStr body.name "", jsOrStr body.url "",
          jsOrNullStr body.description, true,
          servicesPostInterval body.check_interval⟩] },
     201)

/-! ## Theorems about the prober -/

/-- Claim C2: the probe classifier on a completed HTTP response gives the
documented table: 200 at 100ms is operational with no message, 200 at
3000ms is degraded with Slow response, 503 is down with Server error
(503), 404 is degraded with Page not found (404), 403 is operational with
no message, 429 is degraded with Rate limited (429), and a 2xx response is
operational exactly when latency is at most 2500ms and otherwise degraded
with Slow response. -/
theorem classify_matches_table :
    classify 200 100 = (Health.operational, none) ∧
    classify 200 3000 = (Health.degraded, some "Slow response") ∧
    (∀ l, classify 503 l = (Health.down, some "Server error (503)")) ∧
    (∀ l, classify 404 l = (Health.degraded, some "Page not found (404)")) ∧
    (∀ l, classify 403 l = (Health.operational, none)) ∧
    (∀ l, classify 429 l = (Health.degraded, some "Rate limited (429)")) ∧
    (∀ c l, 200 ≤ c → c < 300 →
      (((classify c l).1 = Health.operational ↔ l ≤ 2500) ∧
       (2500 < l → classify c l = (Health.degraded, some "Slow response")))) := by
  refine ⟨by decide, by decide, fun l => rfl, fun l => rfl, fun l => rfl,
    fun l => rfl, ?_⟩
  intro c l h1 h2
  unfold classify
  rw [if_pos ⟨h1, h2⟩]
  by_cases hl : l > 2500
  · rw [if_pos hl]
    constructor
    · constructor
      · intro h
        exact absurd h (by decide)
      · intro h
        omega
    · intro _
      rfl
  · rw [if_neg hl]
    constructor
    · constructor
      · intro _
        omega
      · intro _
        rfl
    · intro h
      omega

/-- Witness for C2 at a concrete 2xx boundary input. -/
theorem classify_matches_table_witness :
    ((classify 204 2501).1 = Health.operational ↔ (2501 : Nat) ≤ 2500) ∧
    classify 204 2501 = (Health.degraded, some "Slow response") :=
  ⟨(classify_matches_table.2.2.2.2.2.2 204 2501 (by decide) (by decide)).1,
   (classify_matches_table.2.2.2.2.2.2 204 2501 (by decide) (by decide)).2 (by decide)⟩

/-- Claim C6: when the GET attempt throws and the fallback HEAD attempt
also throws, checkServiceStatus returns a down result with null
status_code, response_time null on timeout and the elapsed time otherwise,
and an error message classifying the cause (timeout, DNS failure,
connection refused, the raw error text, or the Connection failed
default). -/
theorem double_failure_down (e e2 : JsError) (tl : Nat) :
    checkServiceStatus ⟨Attempt.err e, Attempt.err e2, tl⟩ =
      ⟨Health.down,
       if e.name = "AbortError" then none else some tl,
       none, some (classifyTransportError e)⟩ ∧
    (e.name = "AbortError" → classifyTransportError e = "Request timeout (>10s)") ∧
    (e.name ≠ "AbortError" → e.message = none →
      classifyTransportError e = "Connection failed") ∧
    (∀ m, e.name ≠ "AbortError" → e.message = some m →
      strIncludes m "ENOTFOUND" = true →
      classifyTransportError e = "Domain not found (DNS error)") ∧
    (∀ m, e.name ≠ "AbortError" → e.message = some m →
      strIncludes m "ENOTFOUND" = false → strIncludes m "ECONNREFUSED" = true →
      classifyTransportError e = "Connection refused") ∧
    (∀ m, e.name ≠ "AbortError" → e.message = some m →
      strIncludes m "ENOTFOUND" = false → strIncludes m "ECONNREFUSED" = false →
      m ≠ "" → classifyTransportError e = m) := by
  refine ⟨rfl, ?_, ?_, ?_, ?_, ?_⟩
  · intro h
    unfold classifyTransportError
    rw [if_pos h]
  · intro hn hm
    unfold classifyTransportError
    rw [if_neg hn, hm]
  · intro m hn hm hinc
    unfold classifyTransportError
    rw [if_neg hn, hm]
    simp [hinc]
  · intro m hn hm hni hinc
    unfold classifyTransportError
    rw [if_neg hn, hm]
    simp [hni, hinc]
  · intro m hn hm hni hnc hne
    unfold classifyTransportError
    rw [if_neg hn, hm]
    simp [hni, hnc, hne]

/-- Witness for C6: a concrete DNS double failure. -/
theorem double_failure_down_witness :
    checkServiceStatus
        ⟨Attempt.err ⟨"TypeError", some "getaddrinfo ENOTFOUND x.test"⟩,
         Attempt.err ⟨"TypeError", some "getaddrinfo ENOTFOUND x.test"⟩, 37⟩ =
      ⟨Health.down, some 37, none, some "Domain not found (DNS error)"⟩ := by
  have h := double_failure_down
    ⟨"TypeError", some "getaddrinfo ENOTFOUND x.test"⟩
    ⟨"TypeError", some "getaddrinfo ENOTFOUND x.test"⟩ 37
  have h4 := h.2.2.2.1 "getaddrinfo ENOTFOUND x.test" (by decide) rfl (by decide)
  rw [h.1, h4]
  decide

/-- Claim C10: checkServiceStatus is total on every probe environment, its
status_code is null exactly when both the GET and the fallback HEAD
attempts failed (and then the status is down), and whenever either attempt
yields an HTTP response the returned status_code is that response code. -/
theorem status_code_characterization (env : ProbeEnv) :
    ((checkServiceStatus env).status_code = none ↔
      (∃ e e2, env.getAttempt = Attempt.err e ∧ env.headAttempt = Attempt.err e2)) ∧
    ((∃ e e2, env.getAttempt = Attempt.err e ∧ env.headAttempt = Attempt.err e2) →
      (checkServiceStatus env).status = Health.down) ∧
    (∀ c l, env.getAttempt = Attempt.ok c l →
      (checkServiceStatus env).status_code = some c) ∧
    (∀ c l e, env.getAttempt = Attempt.err e → env.headAttempt = Attempt.ok c l →
      (checkServiceStatus env).status_code = some c) := by
  obtain ⟨g, hAtt, t⟩ := env
  cases g <;> cases hAtt <;>
    simp [checkServiceStatus]

/-- Witness for C10 at a concrete double-failure environment. -/
theorem status_code_characterization_witness :
    (checkServiceStatus ⟨Attempt.err ⟨"AbortError", none⟩,
        Attempt.err ⟨"AbortError", none⟩, 5⟩).status = Health.down :=
  (status_code_characterization _).2.1
    ⟨⟨"AbortError", none⟩, ⟨"AbortError", none⟩, rfl, rfl⟩

/-! ## Theorems about the scheduler -/

theorem maxTime_eq_none_iff (l : List Int) : maxTime l = none ↔ l = [] := by
  cases l with
  | nil => simp [maxTime]
  | cons t ts =>
    cases h : maxTime ts <;> simp [maxTime, h]

theorem maxTime_spec (l : List Int) (t : Int) (h : maxTime l = some t) :
    t ∈ l ∧ ∀ x ∈ l, x ≤ t := by
  induction l generalizing t with
  | nil => simp [maxTime] at h
  | cons a as ih =>
    cases hm : maxTime as with
    | none =>
      rw [maxTime, hm] at h
      have has : as = [] := (maxTime_eq_none_iff as).mp hm
      subst has
      simp at h
      subst h
      simp
    | some m =>
      rw [maxTime, hm] at h
      simp at h
      obtain ⟨hmem, hbound⟩ := ih m hm
      constructor
      · rcases le_total a m with hc | hc
        · rw [← h, max_eq_right hc]
          exact List.mem_cons_of_mem a hmem
        · rw [← h, max_eq_left hc]
          exact List.mem_cons_self a as
      · intro x hx
        rcases List.mem_cons.mp hx with hx | hx
        · rw [hx, ← h]
          exact le_max_left a m
        · calc x ≤ m := hbound x hx
            _ ≤ t := by rw [← h]; exact le_max_right a m

/-- Claim C5: with force false, an active service is selected exactly when
it was never checked or its most recent check is at least check_interval
seconds old; with force true every active service is selected; an inactive
service is never selected; and lastCheckedAt really is the checked_at of
the most recent status check of the service. -/
theorem due_selection (services : List Service) (checks : List StatusCheckRow)
    (now : Int) (s : Service) :
    (s ∈ dueServices services checks now false ↔
      s ∈ services ∧ s.is_active = true ∧
        (lastCheckedAt checks s.id = none ∨
         ∃ t, lastCheckedAt checks s.id = some t ∧
           t ≤ now - (s.check_interval : Int))) ∧
    (s ∈ dueServices services checks now true ↔
      s ∈ services ∧ s.is_active = true) ∧
    (s.is_active = false →
      s ∉ dueServices services checks now false ∧
      s ∉ dueServices services checks now true) ∧
    (lastCheckedAt checks s.id = none ↔
      ∀ c ∈ checks, c.service_id ≠ s.id) ∧
    (∀ t, lastCheckedAt checks s.id = some t →
      (∃ c ∈ checks, c.service_id = s.id ∧ c.checked_at = t) ∧
      ∀ c ∈ checks, c.service_id = s.id → c.checked_at ≤ t) := by
  refine ⟨?_, ?_, ?_, ?_, ?_⟩
  · rw [dueServices, if_neg (by simp), List.mem_filter]
    cases h : lastCheckedAt checks s.id with
    | none => simp [h]
    | some t => simp [h]
  · rw [dueServices, if_pos rfl, List.mem_filter]
  · intro hina
    constructor
    · intro hmem
      rw [dueServices, if_neg (by simp), List.mem_filter] at hmem
      rw [hina] at hmem
      simp at hmem
    · intro hmem
      rw [dueServices, if_pos rfl, List.mem_filter] at hmem
      rw [hina] at hmem
      simp at hmem
  · rw [lastCheckedAt, maxTime_eq_none_iff]
    simp [List.filter_eq_nil_iff]
  · intro t h
    obtain ⟨hmem, hbound⟩ := maxTime_spec _ t h
    constructor
    · obtain ⟨c, hc, hct⟩ := List.mem_map.mp hmem
      obtain ⟨hcc, hcs⟩ := List.mem_filter.mp hc
      exact ⟨c, hcc, by simpa using hcs, hct⟩
    · intro c hc hcs
      exact hbound c.checked_at
        (List.mem_map_of_mem _ (List.mem_filter.mpr ⟨hc, by simpa using hcs⟩))

/-- Witness for C5: with check_interval 420 and now 1000, a service last
checked 421 seconds ago is selected and one checked 419 seconds ago is
not. -/
theorem due_selection_witness :
    (⟨1, "A", "http://a", none, true, 420⟩ : Service) ∈
      dueServices [⟨1, "A", "http://a", none, true, 420⟩]
        [⟨1, Health.operational, some 10, some 200, none, 579⟩] 1000 false ∧
    (⟨1, "A", "http://a", none, true, 420⟩ : Service) ∉
      dueServices [⟨1, "A", "http://a", none, true, 420⟩]
        [⟨1, Health.operational, some 10, some 200, none, 581⟩] 1000 false := by
  constructor
  · exact (due_selection [⟨1, "A", "http://a", none, true, 420⟩]
      [⟨1, Health.operational, some 10, some 200, none, 579⟩] 1000
      ⟨1, "A", "http://a", none, true, 420⟩).1.mpr
      ⟨by decide, rfl, Or.inr ⟨579, by decide, by decide⟩⟩
  · intro hmem
    have h := (due_selection [⟨1, "A", "http://a", none, true, 420⟩]
      [⟨1, Health.operational, some 10, some 200, none, 581⟩] 1000
      ⟨1, "A", "http://a", none, true, 420⟩).1.mp hmem
    rcases h.2.2 with hnone | ⟨t, ht, hle⟩
    · exact absurd hnone (by decide)
    · have : t = 581 := by
        have : lastCheckedAt
            [⟨1, Health.operational, some 10, some 200, none, 581⟩] 1 =
            some 581 := by decide
        rw [this] at ht
        exact (Option.some.injEq _ _).mp ht.symm
      have hci : ((⟨1, "A", "http://a", none, true, 420⟩ :
          Service).check_interval : Int) = 420 := rfl
      rw [hci] at hle
      omega

/-! ## Theorems about the admin surfaces -/

/-- Claim C7 (code-bug evidence): POST /api/services without a
check_interval stores 300 seconds in the created row, while schema.sql
documents the column default as 420 seconds; the two disagree. -/
theorem create_service_interval_mismatch :
    ((servicesPost ⟨[], [], [], [], [], 1⟩ 1
        ⟨some "A", some "http://a.example", none, none⟩).1.services.map
      (fun s => s.check_interval)) = [300] ∧
    (servicesPost ⟨[], [], [], [], [], 1⟩ 1
        ⟨some "A", some "http://a.example", none, none⟩).2 = 201 ∧
    services_check_interval_default = 420 ∧
    servicesPostInterval none ≠ services_check_interval_default := by decide

/-! ## Theorems about the incident reconciler -/

/-- Claim C8: a degraded probe result causes no incident transition: the
worker step for a degraded result only records the probe into the
collected batch and leaves the incident, incident-update, and
announcement-reason state untouched. -/
theorem degraded_is_frame (db : DB) (c : List CollectedRow) (now : Int)
    (svc : Service) (rt sc : Option Nat) (em : Option String)
    (reason : String × String) :
    workerStep (db, c) now svc ⟨Health.degraded, rt, sc, em⟩ reason =
      (db, c ++ [⟨svc.id, svc.name, Health.degraded, rt, sc, em⟩]) := rfl

theorem activeList_append (l1 l2 : List Incident) (sid : Nat) :
    activeList (l1 ++ l2) sid = activeList l1 sid ++ activeList l2 sid := by
  simp [activeList, List.filter_append]

theorem activeList_map_resolve (l : List Incident) (sid : Nat) (now : Int) :
    activeList (l.map (resolveRow sid now)) sid = [] := by
  rw [activeList, List.filter_eq_nil_iff]
  intro a ha
  obtain ⟨i, hi, rfl⟩ := List.mem_map.mp ha
  by_cases h : i.service_id = sid ∧ i.status ≠ "resolved" <;>
    simp [resolveRow, h]

theorem activeList_map_resolve_other (l : List Incident) (sid : Nat) (now : Int)
    (sid2 : Nat) (h : sid2 ≠ sid) :
    activeList (l.map (resolveRow sid now)) sid2 = activeList l sid2 := by
  induction l with
  | nil => rfl
  | cons i is ih =>
    by_cases hm : i.service_id = sid ∧ i.status ≠ "resolved"
    · have h1 : (resolveRow sid now i).service_id = sid := by
        simp [resolveRow, hm]
      have h2 : ¬ ((resolveRow sid now i).service_id = sid2 ∧
          (resolveRow sid now i).status ≠ "resolved") := by
        rw [h1]
        exact fun hc => h (hc.1.symm)
      have h3 : ¬ (i.service_id = sid2 ∧ i.status ≠ "resolved") := by
        rw [hm.1]
        exact fun hc => h (hc.1.symm)
      simp only [List.map, activeList, List.filter]
      rw [show (decide ((resolveRow sid now i).service_id = sid2 ∧
            (resolveRow sid now i).status ≠ "resolved")) = false by simpa using h2,
          show (decide (i.service_id = sid2 ∧ i.status ≠ "resolved")) = false by
            simpa using h3]
      exact ih
    · have he : resolveRow sid now i = i := by
        simp [resolveRow, hm]
      simp only [List.map, activeList, List.filter, he]
      cases hd : decide (i.service_id = sid2 ∧ i.status ≠ "resolved") <;>
        simp only [activeList] at ih <;> rw [ih]

theorem reconcileOperational_incidents (db : DB) (now : Int) (sid : Nat) :
    (reconcileOperational db now sid).incidents =
      db.incidents.map (resolveRow sid now) := by
  simp only [reconcileOperational]
  split <;> rfl

theorem reconcileDown_skip (db : DB) (now : Int) (svc : Service)
    (errMsg : Option String) (reason : String × String)
    (hpos : ∀ i ∈ db.incidents, 0 < i.id)
    (h : activeIncidentsFor db svc.id ≠ []) :
    reconcileDown db now svc errMsg reason = db := by
  obtain ⟨i, rest, hil⟩ := List.exists_cons_of_ne_nil h
  have himem : i ∈ activeIncidentsFor db svc.id := by
    rw [hil]
    exact List.mem_cons_self i rest
  have hidb : i ∈ db.incidents := (List.mem_filter.mp himem).1
  have hipos : 0 < i.id := hpos i hidb
  have ht : jsTruthyNat
      ((activeIncidentsFor db svc.id).head?.map (fun j => j.id)) = true := by
    rw [hil]
    simp [jsTruthyNat]
    omega
  simp only [reconcileDown]
  rw [ht]
  simp

theorem reconcileDown_incidents_of_empty (db : DB) (now : Int) (svc : Service)
    (errMsg : Option String) (reason : String × String)
    (h : activeIncidentsFor db svc.id = []) :
    (reconcileDown db now svc errMsg reason).incidents =
      db.incidents ++
        [⟨db.next_incident_id, svc.id, svc.name ++ " is down",
          some (jsOrStr errMsg "Service is not responding"),
          "investigating", "major", now, none⟩] := by
  have hc : jsTruthyNat
      ((activeIncidentsFor db svc.id).head?.map (fun j => j.id)) = false := by
    rw [h]
    rfl
  simp only [reconcileDown]
  rw [hc]
  simp only [Bool.false_eq_true, if_false]
  split <;> rfl

theorem reconcileOperational_reasons (db : DB) (now : Int) (sid : Nat) :
    (reconcileOperational db now sid).announcement_reasons =
      if activeIncidentsFor db sid = [] then db.announcement_reasons
      else db.announcement_reasons.filter
        (fun r => ¬ ((activeIncidentsFor db sid).map
          (fun i => i.id)).contains r.incident_id) := by
  simp only [reconcileOperational]
  by_cases h : activeIncidentsFor db sid = []
  · rw [h]
    simp
  · have hc : ((activeIncidentsFor db sid).map (fun i => i.id)).isEmpty = false := by
      cases hl : activeIncidentsFor db sid with
      | nil => exact absurd hl h
      | cons a as => rfl
    rw [hc, if_neg h]
    simp

theorem reconcileOperational_updates (db : DB) (now : Int) (sid : Nat) :
    (reconcileOperational db now sid).incident_updates =
      db.incident_updates ++ (activeIncidentsFor db sid).map
        (fun i => (⟨i.id, "Service has been restored and is operational",
          "resolved"⟩ : IncidentUpdate)) := by
  simp only [reconcileOperational]
  by_cases h : activeIncidentsFor db sid = []
  · rw [h]
    simp
  · have hc : ((activeIncidentsFor db sid).map (fun i => i.id)).isEmpty = false := by
      cases hl : activeIncidentsFor db sid with
      | nil => exact absurd hl h
      | cons a as => rfl
    rw [hc]
    simp [List.map_map, Function.comp]

theorem filter_map_comm {α β : Type} (f : α → β) (p : β → Bool) :
    ∀ l : List α, (l.map f).filter p = (l.filter (fun a => p (f a))).map f := by
  intro l
  induction l with
  | nil => rfl
  | cons a as ih =>
    by_cases h : p (f a) = true <;>
      simp [List.filter_cons, h, ih]

theorem nodup_map_filter_length_one {α : Type} (g : α → Nat) :
    ∀ (l : List α), (l.map g).Nodup → ∀ i ∈ l,
      (l.filter (fun x => g x = g i)).length = 1 := by
  intro l
  induction l with
  | nil =>
    intro _ i hi
    cases hi
  | cons b bs ih =>
    intro hnd i hi
    rw [List.map_cons] at hnd
    obtain ⟨hb, hbs⟩ := List.nodup_cons.mp hnd
    by_cases hgb : g b = g i
    · have hnil : bs.filter (fun x => decide (g x = g i)) = [] := by
        rw [List.filter_eq_nil_iff]
        intro x hx
        simp
        intro he
        have hgmem : g b ∈ bs.map g := by
          rw [hgb, ← he]
          exact List.mem_map_of_mem g hx
        exact hb hgmem
      simp only [List.filter_cons]
      rw [show (decide (g b = g i)) = true by simpa using hgb]
      simp [hnil]
    · have hib : i ∈ bs := by
        rcases List.mem_cons.mp hi with h | h
        · exact absurd (h ▸ rfl) hgb
        · exact h
      simp only [List.filter_cons]
      rw [show (decide (g b = g i)) = false by simpa using hgb]
      simp [ih hbs i hib]

theorem updates_filter_length (M S : String) (i : Incident) :
    ∀ (l : List Incident),
      ((l.map (fun j => (⟨j.id, M, S⟩ : IncidentUpdate))).filter
        (fun u => u.incident_id = i.id)).length
      = (l.filter (fun j => j.id = i.id)).length := by
  intro l
  induction l with
  | nil => rfl
  | cons a as ih =>
    simp only [List.map, List.filter_cons]
    by_cases h : a.id = i.id
    · rw [show (decide (a.id = i.id)) = true by simpa using h]
      simp [ih]
    · rw [show (decide (a.id = i.id)) = false by simpa using h]
      simp [ih]

theorem nodup_active_ids (db : DB) (sid : Nat)
    (h : (db.incidents.map (fun i => i.id)).Nodup) :
    ((activeIncidentsFor db sid).map (fun i => i.id)).Nodup :=
  h.sublist ((List.filter_sublist db.incidents).map (fun i => i.id))

theorem activeList_singleton_le (x : Incident) (sid : Nat) :
    (activeList [x] sid).length ≤ 1 := by
  simpa [activeList] using
    List.length_filter_le
      (fun i => decide (i.service_id = sid ∧ i.status ≠ "resolved")) [x]

/-! ## The incident invariant -/

/-- Claim C1 counterexample: from a state with one active incident for
target 1, admin incident creation (POST of part_003, which inserts
unconditionally) produces a second non-resolved incident for the same
target, so not every engine operation preserves the at-most-one bound. -/
theorem admin_create_violates_invariant :
    countActive (⟨[], [],
        [⟨1, 1, "S is down", none, "investigating", "major", 0, none⟩],
        [], [], 2⟩ : DB) 1 = 1 ∧
    countActive (adminCreateIncident
        (⟨[], [],
          [⟨1, 1, "S is down", none, "investigating", "major", 0, none⟩],
          [], [], 2⟩ : DB) 5 1 "Manual report" none none none) 1 = 2 := by
  decide

/-- Claim C1 (amended): the check-cycle reconciliation operations (down and
operational branches) preserve the at-most-one-non-resolved-incident bound
for every target, given that stored incident ids are positive (as SERIAL
guarantees); incident creation via the admin API does not preserve it. -/
theorem reconcile_preserves_invariant (db : DB) (now : Int) (svc : Service)
    (r : CheckResult) (reason : String × String) (sid : Nat)
    (hpos : ∀ i ∈ db.incidents, 0 < i.id)
    (hb : countActive db sid ≤ 1) :
    countActive (reconcile db now svc r reason) sid ≤ 1 := by
  unfold reconcile
  by_cases hd : r.status = Health.down
  · rw [if_pos hd]
    by_cases ha : activeIncidentsFor db svc.id = []
    · have hinc := reconcileDown_incidents_of_empty db now svc r.error_message reason ha
      have hdef : countActive (reconcileDown db now svc r.error_message reason) sid
          = (activeList (reconcileDown db now svc r.error_message reason).incidents
              sid).length := rfl
      rw [hdef, hinc, activeList_append, List.length_append]
      by_cases hs : svc.id = sid
      · have h0 : activeList db.incidents sid = [] := by
          rw [← hs]
          exact ha
        rw [h0]
        have h1 := activeList_singleton_le
          ⟨db.next_incident_id, svc.id, svc.name ++ " is down",
            some (jsOrStr r.error_message "Service is not responding"),
            "investigating", "major", now, none⟩ sid
        simpa using h1
      · have h1 : activeList
            [⟨db.next_incident_id, svc.id, svc.name ++ " is down",
              some (jsOrStr r.error_message "Service is not responding"),
              "investigating", "major", now, none⟩] sid = [] := by
          simp [activeList, hs]
        rw [h1]
        simpa using hb
    · rw [reconcileDown_skip db now svc r.error_message reason hpos ha]
      exact hb
  · rw [if_neg hd]
    by_cases ho : r.status = Health.operational
    · rw [if_pos ho]
      have hdef : countActive (reconcileOperational db now svc.id) sid
          = (activeList (reconcileOperational db now svc.id).incidents sid).length := rfl
      rw [hdef, reconcileOperational_incidents]
      by_cases hs : sid = svc.id
      · subst hs
        rw [activeList_map_resolve]
        simp
      · rw [activeList_map_resolve_other _ _ _ _ hs]
        exact hb
    · rw [if_neg ho]
      exact hb

/-- Witness for the amended C1 at a concrete down reconciliation. -/
theorem reconcile_preserves_invariant_witness :
    countActive
      (reconcile (⟨[], [],
          [⟨1, 1, "S is down", none, "investigating", "major", 0, none⟩],
          [], [], 2⟩ : DB) 5
        ⟨1, "S", "http://s", none, true, 420⟩
        ⟨Health.down, none, none, some "Connection refused"⟩
        ("SERVER", "Server maintenance or outage")) 1 ≤ 1 :=
  reconcile_preserves_invariant
    (⟨[], [], [⟨1, 1, "S is down", none, "investigating", "major", 0, none⟩],
      [], [], 2⟩ : DB) 5
    ⟨1, "S", "http://s", none, true, 420⟩
    ⟨Health.down, none, none, some "Connection refused"⟩
    ("SERVER", "Server maintenance or outage") 1
    (by decide) (by decide)

/-- Claim C3: a down reconciliation for a target that already has a
non-resolved incident leaves the database unchanged: zero additional
incident rows and zero additional announcement-reason rows (incident ids
are positive, as SERIAL guarantees). -/
theorem down_reconciliation_idempotent (db : DB) (now : Int) (svc : Service)
    (errMsg : Option String) (reason : String × String)
    (hpos : ∀ i ∈ db.incidents, 0 < i.id)
    (hactive : activeIncidentsFor db svc.id ≠ []) :
    reconcileDown db now svc errMsg reason = db :=
  reconcileDown_skip db now svc errMsg reason hpos hactive

/-- Witness for C3 at a concrete state with an open incident. -/
theorem down_reconciliation_idempotent_witness :
    reconcileDown (⟨[], [],
        [⟨4, 2, "T is down", none, "investigating", "major", 0, none⟩],
        [], [⟨4, 2, "POWER_OUTAGE", "Power outage"⟩], 5⟩ : DB) 9
      ⟨2, "T", "http://t", none, true, 420⟩ (some "HTTP 503")
      ("SERVER", "Server maintenance or outage") =
    (⟨[], [], [⟨4, 2, "T is down", none, "investigating", "major", 0, none⟩],
      [], [⟨4, 2, "POWER_OUTAGE", "Power outage"⟩], 5⟩ : DB) :=
  down_reconciliation_idempotent
    (⟨[], [], [⟨4, 2, "T is down", none, "investigating", "major", 0, none⟩],
      [], [⟨4, 2, "POWER_OUTAGE", "Power outage"⟩], 5⟩ : DB) 9
    ⟨2, "T", "http://t", none, true, 420⟩ (some "HTTP 503")
    ("SERVER", "Server maintenance or outage")
    (by decide) (by decide)

/-- Claim C4: an operational reconciliation resolves every non-resolved
incident of the target in the one resolving update (status resolved,
resolved_at set to now), leaves zero announcement-reason rows for the
target (given that every reason row of the target belongs to one of its
active incidents, which the engine maintains), and appends exactly one
incident update per resolved incident with the restored message and
resolved status (given distinct incident ids, as SERIAL guarantees); this
holds even when more than one incident was active. -/
theorem operational_resolution_complete (db : DB) (now : Int) (sid : Nat)
    (hnodup : (db.incidents.map (fun i => i.id)).Nodup)
    (hreason : ∀ r ∈ db.announcement_reasons, r.service_id = sid →
      r.incident_id ∈ (activeIncidentsFor db sid).map (fun i => i.id)) :
    activeIncidentsFor (reconcileOperational db now sid) sid = [] ∧
    (∀ i ∈ activeIncidentsFor db sid,
      { i with status := "resolved", resolved_at := some now } ∈
        (reconcileOperational db now sid).incidents) ∧
    (reconcileOperational db now sid).announcement_reasons.filter
      (fun r => r.service_id = sid) = [] ∧
    (reconcileOperational db now sid).incident_updates =
      db.incident_updates ++ (activeIncidentsFor db sid).map
        (fun i => (⟨i.id, "Service has been restored and is operational",
          "resolved"⟩ : IncidentUpdate)) ∧
    (∀ i ∈ activeIncidentsFor db sid,
      ((reconcileOperational db now sid).incident_updates.filter
        (fun u => u.incident_id = i.id)).length =
      (db.incident_updates.filter (fun u => u.incident_id = i.id)).length + 1) := by
  refine ⟨?_, ?_, ?_, reconcileOperational_updates db now sid, ?_⟩
  · have hdef : activeIncidentsFor (reconcileOperational db now sid) sid
        = activeList (reconcileOperational db now sid).incidents sid := rfl
    rw [hdef, reconcileOperational_incidents, activeList_map_resolve]
  · intro i hi
    rw [reconcileOperational_incidents]
    obtain ⟨hmem, hcondb⟩ := List.mem_filter.mp hi
    have hcond := of_decide_eq_true hcondb
    have hres : resolveRow sid now i =
        { i with status := "resolved", resolved_at := some now } := by
      simp only [resolveRow]
      rw [if_pos hcond]
    rw [← hres]
    exact List.mem_map_of_mem _ hmem
  · rw [reconcileOperational_reasons, List.filter_eq_nil_iff]
    by_cases h : activeIncidentsFor db sid = []
    · rw [if_pos h]
      intro r hr
      simp
      intro hserv
      have hm := hreason r hr hserv
      rw [h] at hm
      simp at hm
    · rw [if_neg h]
      intro r hr
      obtain ⟨hrdb, hrkeepb⟩ := List.mem_filter.mp hr
      simp
      intro hserv
      have hk := of_decide_eq_true hrkeepb
      have hm := hreason r hrdb hserv
      exact absurd (List.elem_iff.mpr hm) hk
  · intro i hi
    rw [reconcileOperational_updates, List.filter_append, List.length_append,
      updates_filter_length]
    have h1 : ((activeIncidentsFor db sid).filter
        (fun j => decide (j.id = i.id))).length = 1 :=
      nodup_map_filter_length_one (fun x => x.id) (activeIncidentsFor db sid)
        (nodup_active_ids db sid hnodup) i hi
    rw [h1]

/-- Witness for C4 at a concrete state where the invariant was violated:
two active incidents for target 3, each with a reason row; both resolve,
no reason for the target remains, and each gets one restored update. -/
theorem operational_resolution_complete_witness :
    activeIncidentsFor (reconcileOperational (⟨[], [],
        [⟨1, 3, "U is down", none, "investigating", "major", 0, none⟩,
         ⟨2, 3, "U is down", none, "investigating", "major", 1, none⟩],
        [], [⟨1, 3, "SERVER", "Server maintenance"⟩,
             ⟨2, 3, "POWER_OUTAGE", "Power outage"⟩], 3⟩ : DB) 9 3) 3 = [] ∧
    (reconcileOperational (⟨[], [],
        [⟨1, 3, "U is down", none, "investigating", "major", 0, none⟩,
         ⟨2, 3, "U is down", none, "investigating", "major", 1, none⟩],
        [], [⟨1, 3, "SERVER", "Server maintenance"⟩,
             ⟨2, 3, "POWER_OUTAGE", "Power outage"⟩], 3⟩ : DB) 9 3).announcement_reasons.filter
      (fun r => r.service_id = 3) = [] := by
  have h := operational_resolution_complete (⟨[], [],
      [⟨1, 3, "U is down", none, "investigating", "major", 0, none⟩,
       ⟨2, 3, "U is down", none, "investigating", "major", 1, none⟩],
      [], [⟨1, 3, "SERVER", "Server maintenance"⟩,
           ⟨2, 3, "POWER_OUTAGE", "Power outage"⟩], 3⟩ : DB) 9 3
    (by decide) (by decide)
  exact ⟨h.1, h.2.2.1⟩

/-! ## Authorization -/

/-- Claim C9: each manual-trigger entry point (POST /api/check-status with
a configured nonempty secret, GET /api/check-status, and GET
/api/check-status/force/[secret]) rejects a missing or incorrect shared
secret with 401 before any target is queried or probed: the database is
returned unchanged and the probed list is empty. -/
theorem auth_rejected_before_work (db : DB) (now : Int)
    (probe : Service → CheckResult) (reasonOf : Service → String × String) :
    (∀ (s : String) (hdr fh : Option String), s ≠ "" →
      hdr ≠ some ("Bearer " ++ s) →
      postHandler (some s) hdr fh db now probe reasonOf = ⟨401, db, []⟩) ∧
    (∀ (env sp fp : Option String), getAuthOk env sp = false →
      getHandler env sp fp db now probe reasonOf = ⟨401, db, []⟩) ∧
    (∀ (env : Option String) (ps : String),
      jsOrStr env "" = "" ∨ ps ≠ jsOrStr env "" →
      forceHandler env ps db now probe reasonOf = ⟨401, db, []⟩) := by
  refine ⟨?_, ?_, ?_⟩
  · intro s hdr fh hs hh
    have hr : postRejects (some s) hdr = true := by
      simp [postRejects, hs, hh]
    simp [postHandler, hr]
  · intro env sp fp hok
    simp [getHandler, hok]
  · intro env ps hc
    rcases hc with h | h
    · simp [forceHandler, h]
    · simp [forceHandler, h]

/-- Witness for C9: concrete rejected calls on each entry point. -/
theorem auth_rejected_before_work_witness :
    postHandler (some "s3cret") (some "Bearer wrong") none
        (⟨[], [], [], [], [], 1⟩ : DB) 0
        (fun _ => ⟨Health.operational, some 1, some 200, none⟩)
        (fun _ => ("SERVER", "Server maintenance or outage")) =
      ⟨401, (⟨[], [], [], [], [], 1⟩ : DB), []⟩ ∧
    getHandler (some "s3cret") none none
        (⟨[], [], [], [], [], 1⟩ : DB) 0
        (fun _ => ⟨Health.operational, some 1, some 200, none⟩)
        (fun _ => ("SERVER", "Server maintenance or outage")) =
      ⟨401, (⟨[], [], [], [], [], 1⟩ : DB), []⟩ ∧
    forceHandler (some "s3cret") "guess"
        (⟨[], [], [], [], [], 1⟩ : DB) 0
        (fun _ => ⟨Health.operational, some 1, some 200, none⟩)
        (fun _ => ("SERVER", "Server maintenance or outage")) =
      ⟨401, (⟨[], [], [], [], [], 1⟩ : DB), []⟩ :=
  ⟨(auth_rejected_before_work (⟨[], [], [], [], [], 1⟩ : DB) 0
      (fun _ => ⟨Health.operational, some 1, some 200, none⟩)
      (fun _ => ("SERVER", "Server maintenance or outage"))).1
    "s3cret" (some "Bearer wrong") none (by decide) (by decide),
   (auth_rejected_before_work (⟨[], [], [], [], [], 1⟩ : DB) 0
      (fun _ => ⟨Health.operational, some 1, some 200, none⟩)
      (fun _ => ("SERVER", "Server maintenance or outage"))).2.1
    (some "s3cret") none none (by decide),
   (auth_rejected_before_work (⟨[], [], [], [], [], 1⟩ : DB) 0
      (fun _ => ⟨Health.operational, some 1, some 200, none⟩)
      (fun _ => ("SERVER", "Server maintenance or outage"))).2.2
    (some "s3cret") "guess" (Or.inr (by decide))⟩

end DownDetector
